import Mathlib

/-!
Verification of the Airnode off-chain coordinator and the Airnode contract.

The development shallowly embeds the request data model, the disaggregation
stage, the request builder and overlay helpers of the node, the provider
initializer (`create` in `evm/initialization.ts`), the `go`/`retryOperation`
promise utilities, the block-fetch step of `core/index.ts`, and the Solidity
`Airnode` contract (`makeRequest`, `makeFullRequest`, `fulfill`, `fail`).
Machine integers are modelled as `Int`/`Nat`; Solidity reverts and JS thrown
exceptions are modelled as `Except.error`; fallible RPC calls are modelled as
attempt-indexed oracles returning `Except`.
-/

namespace Airnode

/-- Log levels used by the node's logger (`logger.pend`). -/
inductive LogLevel
  | DEBUG
  | INFO
  | WARN
  | ERROR
deriving DecidableEq, Repr, BEq

/-- A pending log entry: `logger.pend(level, message)`. The optional error
object attached by some call sites is not inspected by any property and is
omitted. -/
structure Log where
  level : LogLevel
  message : String
deriving DecidableEq, Repr, BEq

/-- `logger.pend` from the node's logger. -/
def pend (level : LogLevel) (message : String) : Log :=
  { level := level, message := message }

/-- Request statuses (`RequestStatus` in `src/types`). -/
inductive RequestStatus
  | Pending
  | Fulfilled
  | Ignored
  | Blocked
  | Errored
deriving DecidableEq, Repr, BEq

/-- Request error codes (`RequestErrorCode` in `src/types`). -/
inductive RequestErrorCode
  | RequestParameterDecodingFailed
  | ReservedParametersInvalid
  | TemplateNotFound
  | TemplateParameterDecodingFailed
  | InsufficientParameters
  | UnauthorizedClient
  | PendingWithdrawal
  | NoMatchingAggregatedCall
  | ApiCallFailed
  | UnknownEndpointId
  | UnknownOIS
deriving DecidableEq, Repr, BEq

/-- The three API-call request flavours. -/
inductive ApiCallType
  | short
  | regular
  | full
deriving DecidableEq, Repr, BEq

/-- Metadata attached to every request when the raw event log is parsed. -/
structure RequestMetadata where
  blockNumber : Nat
  currentBlock : Nat
  ignoreBlockedRequestsAfterBlocks : Nat
  transactionHash : String
deriving DecidableEq, Repr, BEq

/-- Decoded request parameters: an ordered name/value mapping. -/
def Parameters : Type := List (String × String)

instance : DecidableEq Parameters := by
  unfold Parameters
  exact inferInstance

instance : Repr Parameters := by
  unfold Parameters
  exact inferInstance

/-- An API-call request record (`ApiCall` in `src/types`), with the fields the
node's request pipeline reads and writes. -/
structure ApiCall where
  id : String
  clientAddress : String
  designatedWallet : Option String
  endpointId : Option String
  fulfillAddress : Option String
  fulfillFunctionId : Option String
  encodedParameters : String
  metadata : RequestMetadata
  parameters : Parameters
  providerId : String
  requestCount : String
  requesterIndex : Option String
  status : RequestStatus
  errorCode : Option RequestErrorCode
  responseValue : Option String
  templateId : Option String
  type : ApiCallType
deriving DecidableEq, Repr

/-- A withdrawal request record; the disaggregation stage never touches these. -/
structure Withdrawal where
  id : String
  status : RequestStatus
deriving DecidableEq, Repr

/-- Requests grouped by kind (`GroupedRequests` in `src/types`). -/
structure GroupedRequests where
  apiCalls : List ApiCall
  withdrawals : List Withdrawal
deriving DecidableEq, Repr

/-- An aggregated API call (`AggregatedApiCall` in `src/types`): the coalesced
representation of equivalent requests across providers. -/
structure AggregatedApiCall where
  id : String
  endpointId : Option String
  parameters : Parameters
  responseValue : Option String
  errorCode : Option RequestErrorCode
deriving DecidableEq, Repr

/-- Per-EVM-provider state. Fields of the real `ProviderState` that the
disaggregation stage neither reads nor writes (contracts, HD node, transaction
counts) are collapsed into `config`. -/
structure ProviderState where
  config : String
  currentBlock : Option Nat
  requests : GroupedRequests
deriving DecidableEq, Repr

/-- Coordinator state: configuration, the per-provider states, and the mapping
from aggregated-call id to `AggregatedApiCall`, the latter modelled as an
association list. -/
structure CoordinatorState where
  config : String
  EVMProviders : List ProviderState
  aggregatedApiCallsById : List (String × AggregatedApiCall)
deriving DecidableEq, Repr

/-- Lookup of an aggregated API call by id in the coordinator's
`aggregatedApiCallsById` mapping. -/
def aggLookup (m : List (String × AggregatedApiCall)) (id : String) :
    Option AggregatedApiCall :=
  match m with
  | [] => none
  | (k, v) :: rest => if k = id then some v else aggLookup rest id

/-- Modelled from the spec: the per-request step of the disaggregation stage
(`coordinator/calls/disaggregation.ts`, not under `src/`; only its tests are).
For a `Pending` API-call request, look up the aggregated call under the
request's id; a hit whose parameters differ from the request's parameters is
treated as not found (defensive check). Found with a `responseValue`: copy it
onto the request and keep the status `Pending`. Found with an error: mark the
request `Errored` with `ApiCallFailed`. Not found: mark the request `Blocked`
with `NoMatchingAggregatedCall` and emit one ERROR log naming the request id.
An aggregated call carrying neither a response value nor an error is not
covered by the spec and leaves the request unchanged. -/
def disaggregateApiCall (aggById : List (String × AggregatedApiCall))
    (call : ApiCall) : List Log × ApiCall :=
  if call.status ≠ RequestStatus.Pending then ([], call)
  else
    let blockedLog :=
      pend LogLevel.ERROR
        ("Unable to find matching aggregated API calls for Request:" ++ call.id)
    let blockedCall :=
      { call with
          status := RequestStatus.Blocked
          errorCode := some RequestErrorCode.NoMatchingAggregatedCall }
    match aggLookup aggById call.id with
    | none => ([blockedLog], blockedCall)
    | some aggregatedApiCall =>
      if aggregatedApiCall.parameters ≠ call.parameters then
        ([blockedLog], blockedCall)
      else
        match aggregatedApiCall.responseValue with
        | some value => ([], { call with responseValue := some value })
        | none =>
          match aggregatedApiCall.errorCode with
          | some _ =>
            ([], { call with
                     status := RequestStatus.Errored
                     errorCode := some RequestErrorCode.ApiCallFailed })
          | none => ([], call)

/-- Modelled from the spec: the per-provider step of disaggregation maps
`disaggregateApiCall` over the provider's API calls and concatenates the
per-request logs. -/
def disaggregateProvider (aggById : List (String × AggregatedApiCall))
    (provider : ProviderState) : List Log × ProviderState :=
  let results := provider.requests.apiCalls.map (disaggregateApiCall aggById)
  ((results.map Prod.fst).flatten,
   { provider with
       requests := { provider.requests with apiCalls := results.map Prod.snd } })

/-- Modelled from the spec: `disaggregation.disaggregate` (not under `src/`)
maps the per-provider step over every EVM provider in the coordinator state and
returns the concatenated logs with the updated provider states. -/
def disaggregate (state : CoordinatorState) : List Log × List ProviderState :=
  let results := state.EVMProviders.map
    (disaggregateProvider state.aggregatedApiCallsById)
  ((results.map Prod.fst).flatten, results.map Prod.snd)

end Airnode

namespace Airnode

/-- Replace every API call of a provider state by its image under `f`,
leaving the provider's other fields and its withdrawals unchanged. -/
def updProviderCalls (f : ApiCall → ApiCall) (p : ProviderState) : ProviderState :=
  { p with requests := { p.requests with apiCalls := p.requests.apiCalls.map f } }

/-- The request produced for a matched call: the aggregated call's response
value copied onto the request, every other field untouched. -/
def copyResponse (aggById : List (String × AggregatedApiCall)) (c : ApiCall) :
    ApiCall :=
  { c with responseValue := (aggLookup aggById c.id).bind AggregatedApiCall.responseValue }

/-- The request produced for an unmatched call: status `Blocked`, error code
`NoMatchingAggregatedCall`, every other field untouched. -/
def blockNoMatch (c : ApiCall) : ApiCall :=
  { c with
      status := RequestStatus.Blocked
      errorCode := some RequestErrorCode.NoMatchingAggregatedCall }

/-- The single ERROR log emitted for an unmatched request, naming its id. -/
def noMatchLog (c : ApiCall) : Log :=
  pend LogLevel.ERROR
    ("Unable to find matching aggregated API calls for Request:" ++ c.id)

/-- A `Pending` request whose id and parameters match an aggregated call
carrying a `responseValue` gets that value copied and keeps its status. -/
theorem disaggregateApiCall_found (aggById : List (String × AggregatedApiCall))
    (c : ApiCall) (agg : AggregatedApiCall) (v : String)
    (hst : c.status = RequestStatus.Pending)
    (ha : aggLookup aggById c.id = some agg)
    (hpar : agg.parameters = c.parameters)
    (hv : agg.responseValue = some v) :
    disaggregateApiCall aggById c = ([], { c with responseValue := some v }) := by
  unfold disaggregateApiCall
  rw [ha]
  simp [hst, hpar, hv]

/-- A `Pending` request with no aggregated call under its id, or one whose
parameters differ, is blocked with one ERROR log. -/
theorem disaggregateApiCall_unmatched
    (aggById : List (String × AggregatedApiCall)) (c : ApiCall)
    (hst : c.status = RequestStatus.Pending)
    (hun : aggLookup aggById c.id = none ∨
      ∃ agg, aggLookup aggById c.id = some agg ∧ agg.parameters ≠ c.parameters) :
    disaggregateApiCall aggById c = ([noMatchLog c], blockNoMatch c) := by
  unfold disaggregateApiCall noMatchLog blockNoMatch
  rcases hun with hnone | ⟨agg, ha, hne⟩
  · rw [hnone]
    simp [hst]
  · rw [ha]
    simp [hst, hne]

/-- Splitting a list of `(logs, value)` results when every element produces no
logs: the concatenated logs are empty and the values are the mapped values. -/
theorem logsData_split {α β : Type} (l : List α) (g : α → List Log × β)
    (f : α → β) (hf : ∀ a ∈ l, g a = ([], f a)) :
    ((l.map g).map Prod.fst).flatten = [] ∧ (l.map g).map Prod.snd = l.map f := by
  induction l with
  | nil => simp
  | cons a t ih =>
    have ha := hf a (List.mem_cons_self a t)
    have ht := ih (fun x hx => hf x (List.mem_cons_of_mem a hx))
    refine ⟨?_, ?_⟩
    · rw [List.map_cons, List.map_cons, ha, List.flatten_cons, ht.1]
      rfl
    · rw [List.map_cons, List.map_cons, ha, ht.2, List.map_cons]

/-- The provider states returned by `disaggregate` are the input providers with
each API call replaced by its `disaggregateApiCall` result. -/
theorem disaggregate_snd (st : CoordinatorState) :
    (disaggregate st).2 = st.EVMProviders.map
      (updProviderCalls (fun d => (disaggregateApiCall st.aggregatedApiCallsById d).2)) := by
  simp only [disaggregate, List.map_map]
  refine List.map_congr_left (fun q _ => ?_)
  simp [disaggregateProvider, updProviderCalls, List.map_map]

/-- C1. For every coordinator state in which each EVM provider holds a Pending
API-call request whose id and parameters match an AggregatedApiCall carrying a
responseValue, `disaggregate` copies that responseValue onto every such
provider's request, leaves each request's status Pending, and returns an empty
log list. -/
theorem disaggregate_copies_response (st : CoordinatorState)
    (h : ∀ p ∈ st.EVMProviders, ∀ c ∈ p.requests.apiCalls,
      c.status = RequestStatus.Pending ∧
      ∃ agg v, aggLookup st.aggregatedApiCallsById c.id = some agg ∧
        agg.parameters = c.parameters ∧ agg.responseValue = some v) :
    (disaggregate st).1 = [] ∧
    (disaggregate st).2 = st.EVMProviders.map
      (updProviderCalls (copyResponse st.aggregatedApiCallsById)) ∧
    ∀ p ∈ (disaggregate st).2, ∀ c ∈ p.requests.apiCalls,
      c.status = RequestStatus.Pending := by
  have hcall : ∀ p ∈ st.EVMProviders, ∀ c ∈ p.requests.apiCalls,
      disaggregateApiCall st.aggregatedApiCallsById c =
        ([], copyResponse st.aggregatedApiCallsById c) := by
    intro p hp c hc
    obtain ⟨hst, agg, v, ha, hpar, hv⟩ := h p hp c hc
    rw [disaggregateApiCall_found st.aggregatedApiCallsById c agg v hst ha hpar hv]
    unfold copyResponse
    rw [ha]
    simp [hv]
  have hprov : ∀ p ∈ st.EVMProviders,
      disaggregateProvider st.aggregatedApiCallsById p =
        ([], updProviderCalls (copyResponse st.aggregatedApiCallsById) p) := by
    intro p hp
    have hsplit := logsData_split p.requests.apiCalls
      (disaggregateApiCall st.aggregatedApiCallsById) _ (hcall p hp)
    simp only [disaggregateProvider, updProviderCalls]
    rw [hsplit.1, hsplit.2]
  have hsplit2 := logsData_split st.EVMProviders
    (disaggregateProvider st.aggregatedApiCallsById) _ hprov
  refine ⟨?_, ?_, ?_⟩
  · simpa only [disaggregate] using hsplit2.1
  · simpa only [disaggregate] using hsplit2.2
  · intro p hp c hc
    have h2 : (disaggregate st).2 = st.EVMProviders.map
        (updProviderCalls (copyResponse st.aggregatedApiCallsById)) := by
      simpa only [disaggregate] using hsplit2.2
    rw [h2] at hp
    obtain ⟨p0, hp0, rfl⟩ := List.mem_map.mp hp
    simp only [updProviderCalls, List.mem_map] at hc
    obtain ⟨c0, hc0, rfl⟩ := hc
    exact (h p0 hp0 c0 hc0).1

/-- C2. A Pending API-call request for which no AggregatedApiCall is found
under its id, or for which one is found but its parameters differ, is set to
Blocked with errorCode NoMatchingAggregatedCall, its responseValue left as it
was (unset), with exactly one ERROR log naming the request id; `disaggregate`
processes every request independently through `disaggregateApiCall`, and
matching requests on other providers get their responseValue copied with
status and errorCode untouched. -/
theorem disaggregate_blocked_on_no_match (st : CoordinatorState)
    (p : ProviderState) (c : ApiCall)
    (_hp : p ∈ st.EVMProviders) (_hc : c ∈ p.requests.apiCalls)
    (hpend : c.status = RequestStatus.Pending)
    (hun : aggLookup st.aggregatedApiCallsById c.id = none ∨
      ∃ agg, aggLookup st.aggregatedApiCallsById c.id = some agg ∧
        agg.parameters ≠ c.parameters) :
    disaggregateApiCall st.aggregatedApiCallsById c =
      ([noMatchLog c], blockNoMatch c) ∧
    (disaggregate st).2 = st.EVMProviders.map
      (updProviderCalls (fun d => (disaggregateApiCall st.aggregatedApiCallsById d).2)) ∧
    (∀ q ∈ st.EVMProviders, ∀ d ∈ q.requests.apiCalls, ∀ agg v,
      d.status = RequestStatus.Pending →
      aggLookup st.aggregatedApiCallsById d.id = some agg →
      agg.parameters = d.parameters →
      agg.responseValue = some v →
      disaggregateApiCall st.aggregatedApiCallsById d =
        ([], { d with responseValue := some v })) := by
  refine ⟨disaggregateApiCall_unmatched st.aggregatedApiCallsById c hpend hun,
    disaggregate_snd st, ?_⟩
  intro q _ d _ agg v hdst ha hpar hv
  exact disaggregateApiCall_found st.aggregatedApiCallsById d agg v hdst ha hpar hv

end Airnode

namespace Airnode

/-- Fixture metadata used by the concrete scenarios. -/
def fixtureMetadata : RequestMetadata :=
  { blockNumber := 10716082
    currentBlock := 10716085
    ignoreBlockedRequestsAfterBlocks := 20
    transactionHash := "0x61c972d98485da38115a5730b6741ffc4f3e09ae5e1df39a7ff18a68777ab318" }

/-- Fixture API call (`fixtures.requests.buildApiCall`). -/
def fixtureApiCall : ApiCall :=
  { id := "apiCallId"
    clientAddress := "clientAddress"
    designatedWallet := some "designatedWallet"
    endpointId := some "endpointId"
    fulfillAddress := some "fulfillAddress"
    fulfillFunctionId := some "fulfillFunctionId"
    encodedParameters := "encodedParameters"
    metadata := fixtureMetadata
    parameters := [("from", "ETH")]
    providerId := "providerId"
    requestCount := "12"
    requesterIndex := some "3"
    status := RequestStatus.Pending
    errorCode := none
    responseValue := none
    templateId := none
    type := ApiCallType.regular }

/-- Fixture aggregated API call matching `fixtureApiCall`, carrying the
response value of scenario S1. -/
def fixtureAggregatedApiCall : AggregatedApiCall :=
  { id := "apiCallId"
    endpointId := some "endpointId"
    parameters := [("from", "ETH")]
    responseValue :=
      some "0x00000000000000000000000000000000000000000000000000000000000001b9"
    errorCode := none }

/-- Provider state holding the fixture request. -/
def fixtureProvider : ProviderState :=
  { config := "config"
    currentBlock := some 10716085
    requests := { apiCalls := [fixtureApiCall], withdrawals := [] } }

/-- Scenario S1: three EVM providers each holding the same Pending request,
one aggregated call with a response value. -/
def s1State : CoordinatorState :=
  { config := "config"
    EVMProviders := [fixtureProvider, fixtureProvider, fixtureProvider]
    aggregatedApiCallsById := [("apiCallId", fixtureAggregatedApiCall)] }

/-- Witness for C1: on the three-provider scenario S1 the hypotheses hold and
`disaggregate` emits no logs, copies the response value to every provider's
request and keeps every request Pending. -/
theorem disaggregate_copies_response_witness :
    (disaggregate s1State).1 = [] ∧
    (disaggregate s1State).2 = s1State.EVMProviders.map
      (updProviderCalls (copyResponse s1State.aggregatedApiCallsById)) ∧
    ∀ p ∈ (disaggregate s1State).2, ∀ c ∈ p.requests.apiCalls,
      c.status = RequestStatus.Pending :=
  disaggregate_copies_response s1State (by
    intro p hp c hc
    have hp2 : p = fixtureProvider := by
      simpa [s1State] using hp
    subst hp2
    have hc2 : c = fixtureApiCall := by
      simpa [fixtureProvider] using hc
    subst hc2
    exact ⟨rfl, fixtureAggregatedApiCall,
      "0x00000000000000000000000000000000000000000000000000000000000001b9",
      rfl, rfl, rfl⟩)

/-- The `ethCall` request of scenario S2: parameters differ from the aggregated
ones. -/
def s2EthCall : ApiCall :=
  { fixtureApiCall with id := "ethCall", parameters := [("from", "ETH")] }

/-- The `btcCall` request of scenario S2: matched by the aggregated call. -/
def s2BtcCall : ApiCall :=
  { fixtureApiCall with id := "btcCall", parameters := [("from", "BTC")] }

/-- The aggregated call of scenario S2, under id `btcCall`. -/
def s2AggregatedApiCall : AggregatedApiCall :=
  { id := "btcCall"
    endpointId := some "endpointId"
    parameters := [("from", "BTC")]
    responseValue := some "0x123"
    errorCode := none }

/-- Provider 0 of scenario S2, holding `ethCall`. -/
def s2Provider0 : ProviderState :=
  { fixtureProvider with
      requests := { apiCalls := [s2EthCall], withdrawals := [] } }

/-- Provider 1 of scenario S2, holding `btcCall`. -/
def s2Provider1 : ProviderState :=
  { fixtureProvider with
      requests := { apiCalls := [s2BtcCall], withdrawals := [] } }

/-- Scenario S2: two providers, only `btcCall` has a matching aggregated call. -/
def s2State : CoordinatorState :=
  { config := "config"
    EVMProviders := [s2Provider0, s2Provider1]
    aggregatedApiCallsById := [("btcCall", s2AggregatedApiCall)] }

/-- Witness for C2: in scenario S2 the unmatched `ethCall` is blocked with one
ERROR log naming it, and the matched `btcCall` on the other provider gets the
response value `0x123` copied. -/
theorem disaggregate_blocked_on_no_match_witness :
    disaggregateApiCall s2State.aggregatedApiCallsById s2EthCall =
      ([noMatchLog s2EthCall], blockNoMatch s2EthCall) ∧
    disaggregateApiCall s2State.aggregatedApiCallsById s2BtcCall =
      ([], { s2BtcCall with responseValue := some "0x123" }) :=
  have h := disaggregate_blocked_on_no_match s2State s2Provider0 s2EthCall
    (by simp [s2State]) (by simp [s2Provider0]) rfl
    (Or.inl (by simp [s2State, aggLookup, s2EthCall, fixtureApiCall]))
  ⟨h.1, h.2.2 s2Provider1 (by simp [s2State]) s2BtcCall (by simp [s2Provider1])
    s2AggregatedApiCall "0x123" rfl rfl rfl rfl⟩

end Airnode

namespace Airnode

/-- Modelled from the spec: `go(promise)` from `utils/promise-utils` (not under
`src/`; only its callers are): surfaces an asynchronous failure as a value,
returning an `(error, null)` pair on rejection and `(null, value)` on success. -/
def go {α : Type} (promise : Except String α) : Option String × Option α :=
  match promise with
  | Except.ok v => (none, some v)
  | Except.error e => (some e, none)

/-- Modelled from the spec: the retry loop of `retryOperation`. Attempts are
numbered from `first`; the operation is run up to the given number of times,
returning the first success or the last error. Backoff timing is not modelled. -/
def retryAttempts {α : Type} (op : Nat → Except String α) (first : Nat) :
    Nat → Except String α
  | 0 => op first
  | 1 => op first
  | n + 2 =>
    match op first with
    | Except.ok v => Except.ok v
    | Except.error _ => retryAttempts op (first + 1) (n + 1)

/-- Modelled from the spec: `retryOperation(retries, op)` from
`utils/promise-utils` (not under `src/`): wraps an operation in a retry policy
of `retries` attempts. -/
def retryOperation {α : Type} (retries : Nat) (op : Nat → Except String α) :
    Except String α :=
  retryAttempts op 0 retries

/-- Modelled from the spec: the `OPERATION_RETRIES` constant from the node's
constants module (not under `src/`). The spec fixes only the name; two attempts
are assumed. Nothing below depends on the exact value. -/
def OPERATION_RETRIES : Nat := 2

/-- The state threaded through `core/index.ts`: the fields `main` writes. -/
structure CoreState where
  gasPrice : Option Int
  currentBlock : Option Nat
deriving DecidableEq, Repr

/-- `main` from `src/packages/node/src/core/index.ts`, parametrized by the
outcomes of its two RPC suspension points. `state.initialize` is collapsed
into the initial state argument. The un-`go`-wrapped `await` of `getGasPrice`
propagates a rejection as a thrown exception; the `getBlockNumber` call is
wrapped in `go` but `main` then throws on the error value (its own TODO notes
that retrying is missing), and a current block of `0` is falsey in JS and also
throws. Thrown exceptions are modelled as `Except.error`. -/
def main (state1 : CoreState) (getGasPrice : Except String Int)
    (getBlockNumber : Except String Nat) : Except String (List CoreState) :=
  match getGasPrice with
  | Except.error e => Except.error e
  | Except.ok gasPrice =>
    let state2 := { state1 with gasPrice := some gasPrice }
    match go getBlockNumber with
    | (some blockErr, _) => Except.error ("Unable to get current block. " ++ blockErr)
    | (none, none) => Except.error "Unable to get current block. null"
    | (none, some currentBlock) =>
      if currentBlock = 0 then Except.error "Unable to get current block. null"
      else
        let state3 := { state2 with currentBlock := some currentBlock }
        Except.ok [state3]

/-- A chain provider whose `getBlockNumber` fails on its first attempt and
succeeds on the second: a retry policy of two attempts recovers, a single
attempt does not. -/
def flakyBlockProvider : Nat → Except String Nat :=
  fun attempt => if attempt = 0 then Except.error "timeout" else Except.ok 10716085

/-- The fresh core state `main` starts from. -/
def coreState0 : CoreState :=
  { gasPrice := none, currentBlock := none }

/-- C3 (code bug). `main` makes its `getBlockNumber` RPC call exactly once —
wrapped in `go` but in no retry policy — and converts the `(error, null)` pair
back into a thrown exception, while `retryOperation OPERATION_RETRIES` on the
same provider succeeds: the claim that every RPC call of a coordinator run is
retried `OPERATION_RETRIES` times with its failure kept as a value fails on
`core/index.ts` (whose own TODO comment concedes that retrying is missing). -/
theorem main_throws_without_retry :
    main coreState0 (Except.ok 20) (flakyBlockProvider 0) =
      Except.error "Unable to get current block. timeout" ∧
    retryOperation OPERATION_RETRIES flakyBlockProvider = Except.ok 10716085 :=
  ⟨rfl, rfl⟩

end Airnode

namespace Airnode

/-- The on-chain provider record returned by `getProviderAndBlockNumber`
(`ProviderData` in `evm/initialization.ts`). -/
structure ProviderData where
  authorizers : List String
  blockNumber : Nat
  providerAdmin : String
  xpub : String
deriving DecidableEq, Repr

/-- The configuration side compared against the on-chain record
(`ProviderExistsOptions` in `evm/initialization.ts`; the master HD node is
replaced by the `currentXpub` it derives). -/
structure ProviderExistsOptions where
  authorizers : List String
  providerAdmin : String
deriving DecidableEq, Repr

/-- `providerDetailsMatch` from `evm/initialization.ts`: the configured admin
and authorizers coincide with the on-chain record. -/
def providerDetailsMatch (options : ProviderExistsOptions)
    (onchainData : ProviderData) : Bool :=
  options.providerAdmin == onchainData.providerAdmin &&
    options.authorizers == onchainData.authorizers

/-- The options `create` receives (`CreateOptions` in `evm/initialization.ts`),
with the wallet and contract handles replaced by the RPC oracles passed
separately. -/
structure CreateOptions extends ProviderExistsOptions where
  currentXpub : String
  onchainData : ProviderData
deriving DecidableEq, Repr

/-- The transaction `create` submits: its hash as returned by the chain and
the value, gas limit and gas price the node put into it. -/
structure Tx where
  hash : String
  value : Int
  gasLimit : Int
  gasPrice : Int
deriving DecidableEq, Repr

/-- The three shapes `create` can return: a submitted transaction, the empty
record (insufficient funds for an update), or null (an RPC step failed). -/
inductive CreateResult
  | tx (t : Tx)
  | empty
  | failure
deriving DecidableEq, Repr

/-- Stand-in for `ethers.utils.formatEther` (an external library): renders the
wei amount as a decimal string. The division by 10^18 of the real formatter is
irrelevant to every property and not modelled. -/
def formatEther (wei : Int) : String :=
  toString wei

/-- Stand-in for `utils.weiToGwei` (outside the visible sources): renders a
gas price for logging. -/
def weiToGwei (wei : Int) : String :=
  toString (wei / 1000000000)

/-- `create` from `src/packages/node/src/evm/initialization.ts`. The three
read RPCs (gas estimation, gas price, master wallet balance) and the
transaction submission are attempt-indexed oracles; each is wrapped in
`retryOperation OPERATION_RETRIES` and read through `go` exactly as in the
source. Amounts are `Int` because `fundsToSend = balance - txCost` may be
negative (ethers `BigNumber` subtraction is signed). -/
def create (options : CreateOptions)
    (gasEstimateOp gasPriceOp balanceOp : Nat → Except String Int)
    (submitOp : Nat → Except String String) : List Log × CreateResult :=
  let log1 := pend LogLevel.INFO
    ("Creating provider with address:" ++ options.providerAdmin ++ "...")
  let log2 := pend LogLevel.INFO "Estimating transaction cost for creating provider..."
  match go (retryOperation OPERATION_RETRIES gasEstimateOp) with
  | (some _, _) =>
    ([log1, log2, pend LogLevel.ERROR "Unable to estimate transaction cost"],
     CreateResult.failure)
  | (none, none) =>
    ([log1, log2, pend LogLevel.ERROR "Unable to estimate transaction cost"],
     CreateResult.failure)
  | (none, some estimatedGasCost) =>
    let gasLimit := estimatedGasCost + 20000
    let log3 := pend LogLevel.INFO ("Estimated gas limit: " ++ toString gasLimit)
    match go (retryOperation OPERATION_RETRIES gasPriceOp) with
    | (some _, _) =>
      ([log1, log2, log3, pend LogLevel.ERROR "Unable to fetch gas price"],
       CreateResult.failure)
    | (none, none) =>
      ([log1, log2, log3, pend LogLevel.ERROR "Unable to fetch gas price"],
       CreateResult.failure)
    | (none, some gasPrice) =>
      let log4 := pend LogLevel.INFO
        ("Gas price set to " ++ weiToGwei gasPrice ++ " Gwei")
      match go (retryOperation OPERATION_RETRIES balanceOp) with
      | (some _, _) =>
        ([log1, log2, log3, log4,
          pend LogLevel.ERROR "Unable to fetch master wallet balance"],
         CreateResult.failure)
      | (none, none) =>
        ([log1, log2, log3, log4,
          pend LogLevel.ERROR "Unable to fetch master wallet balance"],
         CreateResult.failure)
      | (none, some masterWalletBalance) =>
        let log5 := pend LogLevel.INFO
          ("Master wallet balance: " ++ formatEther masterWalletBalance ++ " ETH")
        let txCost := gasLimit * gasPrice
        if txCost > masterWalletBalance ∧
            options.onchainData.xpub ≠ "" ∧
            options.currentXpub = options.onchainData.xpub ∧
            providerDetailsMatch options.toProviderExistsOptions
              options.onchainData = false then
          let warnLog := pend LogLevel.WARN
            "Unable to update onchain provider record as the master wallet does not have sufficient funds"
          let balanceLog := pend LogLevel.WARN
            ("Current balance: " ++ formatEther masterWalletBalance ++
              " ETH. Estimated transaction cost: " ++ formatEther txCost ++ " ETH")
          let updatesLog := pend LogLevel.WARN
            "Any updates to \"providerAdmin\" or \"authorizers\" will not take affect until the provider has been updated"
          ([log1, log2, log3, log4, warnLog, balanceLog, updatesLog],
           CreateResult.empty)
        else
          let fundsToSend := masterWalletBalance - txCost
          let log6 := pend LogLevel.INFO "Submitting create provider transaction..."
          match go (retryOperation OPERATION_RETRIES submitOp) with
          | (some _, _) =>
            ([log1, log2, log3, log4, log5, log6,
              pend LogLevel.ERROR "Unable to submit create provider transaction"],
             CreateResult.failure)
          | (none, none) =>
            ([log1, log2, log3, log4, log5, log6,
              pend LogLevel.ERROR "Unable to submit create provider transaction"],
             CreateResult.failure)
          | (none, some txHash) =>
            let log7 := pend LogLevel.INFO
              ("Create provider transaction submitted:" ++ txHash)
            let log8 := pend LogLevel.INFO
              "Airnode will not process requests until the create provider transaction has been confirmed"
            ([log1, log2, log3, log4, log5, log6, log7, log8],
             CreateResult.tx
               { hash := txHash, value := fundsToSend,
                 gasLimit := gasLimit, gasPrice := gasPrice })

end Airnode

namespace Airnode

/-- Options where the on-chain record is absent (empty xpub): the funds guard
of `create` does not apply. -/
def c4Options : CreateOptions :=
  { authorizers := ["0xauthorizer"]
    providerAdmin := "0xadmin"
    currentXpub := "xpub-current"
    onchainData :=
      { authorizers := [], blockNumber := 12, providerAdmin := "0x0", xpub := "" } }

/-- Gas estimation oracle answering 0 on every attempt. -/
def okGasEstimateOp : Nat → Except String Int := fun _ => Except.ok 0

/-- Gas price oracle answering 1 wei on every attempt. -/
def okGasPriceOp : Nat → Except String Int := fun _ => Except.ok 1

/-- Balance oracle answering 5 wei on every attempt: below the 20000 wei
transaction cost. -/
def okBalanceOp : Nat → Except String Int := fun _ => Except.ok 5

/-- Submission oracle accepting the transaction. -/
def okSubmitOp : Nat → Except String String := fun _ => Except.ok "0xtransactionhash"

/-- C4 (counterexample). With the master wallet balance (5 wei) below the
estimated transaction cost (20000 wei) but an empty on-chain xpub, `create`
still submits the createProvider transaction — with a negative value — so the
claim that it submits only when the balance covers the cost is false. -/
theorem create_submits_below_cost :
    (create c4Options okGasEstimateOp okGasPriceOp okBalanceOp okSubmitOp).2 =
      CreateResult.tx
        { hash := "0xtransactionhash", value := -19995, gasLimit := 20000, gasPrice := 1 } ∧
    (5 : Int) < 20000 * 1 :=
  ⟨rfl, by norm_num⟩

/-- C4 (amended). Whenever the three read RPCs succeed with estimate `est`,
gas price `gp` and balance `bal`: `create` skips submission (returning the
empty record) exactly when the estimated cost exceeds the balance AND the
provider already exists on chain under the node's own non-empty xpub with
differing admin or authorizers — under that guard it returns the empty record,
and whenever the guard fails it never returns the empty record and, as soon as
the submission RPC succeeds, returns the submitted transaction, whose value is
`bal - (est + 20000) * gp` — the balance minus the estimated cost, negative
when the balance is below the cost. Every submitted transaction carries that
value. -/
theorem create_value_and_skip (options : CreateOptions)
    (gasEstimateOp gasPriceOp balanceOp : Nat → Except String Int)
    (submitOp : Nat → Except String String) (est gp bal : Int)
    (hE : go (retryOperation OPERATION_RETRIES gasEstimateOp) = (none, some est))
    (hP : go (retryOperation OPERATION_RETRIES gasPriceOp) = (none, some gp))
    (hB : go (retryOperation OPERATION_RETRIES balanceOp) = (none, some bal)) :
    (((est + 20000) * gp > bal ∧
      options.onchainData.xpub ≠ "" ∧
      options.currentXpub = options.onchainData.xpub ∧
      providerDetailsMatch options.toProviderExistsOptions options.onchainData = false) →
      (create options gasEstimateOp gasPriceOp balanceOp submitOp).2 =
        CreateResult.empty) ∧
    (¬((est + 20000) * gp > bal ∧
      options.onchainData.xpub ≠ "" ∧
      options.currentXpub = options.onchainData.xpub ∧
      providerDetailsMatch options.toProviderExistsOptions options.onchainData = false) →
      (create options gasEstimateOp gasPriceOp balanceOp submitOp).2 ≠
        CreateResult.empty ∧
      ∀ txHash : String,
        go (retryOperation OPERATION_RETRIES submitOp) = (none, some txHash) →
        (create options gasEstimateOp gasPriceOp balanceOp submitOp).2 =
          CreateResult.tx
            { hash := txHash, value := bal - (est + 20000) * gp,
              gasLimit := est + 20000, gasPrice := gp }) ∧
    (∀ t : Tx,
      (create options gasEstimateOp gasPriceOp balanceOp submitOp).2 = CreateResult.tx t →
      t.value = bal - (est + 20000) * gp) := by
  refine ⟨?_, ?_, ?_⟩
  · intro hcond
    simp only [create, hE, hP, hB]
    rw [if_pos hcond]
  · intro hcond
    constructor
    · simp only [create, hE, hP, hB]
      rw [if_neg hcond]
      rcases hsub : go (retryOperation OPERATION_RETRIES submitOp) with ⟨os, ov⟩
      cases os with
      | some e => simp
      | none =>
        cases ov with
        | none => simp
        | some txHash => simp
    · intro txHash hsub
      simp only [create, hE, hP, hB]
      rw [if_neg hcond, hsub]
  · intro t ht
    simp only [create, hE, hP, hB] at ht
    by_cases hcond : ((est + 20000) * gp > bal ∧
        options.onchainData.xpub ≠ "" ∧
        options.currentXpub = options.onchainData.xpub ∧
        providerDetailsMatch options.toProviderExistsOptions options.onchainData = false)
    · rw [if_pos hcond] at ht
      simp at ht
    · rw [if_neg hcond] at ht
      rcases hsub : go (retryOperation OPERATION_RETRIES submitOp) with ⟨os, ov⟩
      rw [hsub] at ht
      cases os with
      | some e => simp at ht
      | none =>
        cases ov with
        | none => simp at ht
        | some txHash =>
          simp only [CreateResult.tx.injEq] at ht
          rw [← ht]

/-- Options of scenario S6: the on-chain record exists under the node's own
xpub but with a different admin and different authorizers. -/
def c5Options : CreateOptions :=
  { authorizers := ["0xauthorizer"]
    providerAdmin := "0xadmin"
    currentXpub := "xpub-current"
    onchainData :=
      { authorizers := ["0xother"], blockNumber := 12,
        providerAdmin := "0xadmin2", xpub := "xpub-current" } }

/-- C5. When the read RPCs succeed, the estimated cost exceeds the balance,
the on-chain xpub is non-empty and equals the node's current xpub, and the
on-chain admin or authorizers differ from configuration, `create` returns the
empty record, emits exactly the three WARN logs (insufficient funds,
balance/cost, consequence for updates), and never consults the submission
oracle. -/
theorem create_warns_on_insufficient_update_funds (options : CreateOptions)
    (gasEstimateOp gasPriceOp balanceOp : Nat → Except String Int)
    (submitOp : Nat → Except String String) (est gp bal : Int)
    (hE : go (retryOperation OPERATION_RETRIES gasEstimateOp) = (none, some est))
    (hP : go (retryOperation OPERATION_RETRIES gasPriceOp) = (none, some gp))
    (hB : go (retryOperation OPERATION_RETRIES balanceOp) = (none, some bal))
    (hcost : (est + 20000) * gp > bal)
    (hxpub : options.onchainData.xpub ≠ "")
    (hsame : options.currentXpub = options.onchainData.xpub)
    (hdiff : providerDetailsMatch options.toProviderExistsOptions
      options.onchainData = false) :
    (create options gasEstimateOp gasPriceOp balanceOp submitOp).2 =
      CreateResult.empty ∧
    (create options gasEstimateOp gasPriceOp balanceOp submitOp).1.filter
        (fun l => l.level == LogLevel.WARN) =
      [pend LogLevel.WARN
        "Unable to update onchain provider record as the master wallet does not have sufficient funds",
       pend LogLevel.WARN
        ("Current balance: " ++ formatEther bal ++
          " ETH. Estimated transaction cost: " ++
          formatEther ((est + 20000) * gp) ++ " ETH"),
       pend LogLevel.WARN
        "Any updates to \"providerAdmin\" or \"authorizers\" will not take affect until the provider has been updated"] ∧
    ∀ submitOp2 : Nat → Except String String,
      create options gasEstimateOp gasPriceOp balanceOp submitOp2 =
        create options gasEstimateOp gasPriceOp balanceOp submitOp := by
  have hbody : ∀ sub : Nat → Except String String,
      create options gasEstimateOp gasPriceOp balanceOp sub =
        ([pend LogLevel.INFO
            ("Creating provider with address:" ++ options.providerAdmin ++ "..."),
          pend LogLevel.INFO "Estimating transaction cost for creating provider...",
          pend LogLevel.INFO ("Estimated gas limit: " ++ toString (est + 20000)),
          pend LogLevel.INFO ("Gas price set to " ++ weiToGwei gp ++ " Gwei"),
          pend LogLevel.WARN
            "Unable to update onchain provider record as the master wallet does not have sufficient funds",
          pend LogLevel.WARN
            ("Current balance: " ++ formatEther bal ++
              " ETH. Estimated transaction cost: " ++
              formatEther ((est + 20000) * gp) ++ " ETH"),
          pend LogLevel.WARN
            "Any updates to \"providerAdmin\" or \"authorizers\" will not take affect until the provider has been updated"],
         CreateResult.empty) := by
    intro sub
    simp only [create, hE, hP, hB]
    rw [if_pos ⟨hcost, hxpub, hsame, hdiff⟩]
  refine ⟨?_, ?_, ?_⟩
  · rw [hbody submitOp]
  · rw [hbody submitOp]
    rfl
  · intro submitOp2
    rw [hbody submitOp, hbody submitOp2]

/-- Witness for C4 (amended): at scenario S6 the guard holds and the result is
the empty record; at the below-cost scenario with empty on-chain xpub the
guard fails and `create` submits the transaction with value `5 - 20000`, and
that submitted transaction's value equals the balance minus the cost. -/
theorem create_value_and_skip_witness :
    (create c5Options okGasEstimateOp okGasPriceOp okBalanceOp okSubmitOp).2 =
      CreateResult.empty ∧
    (create c4Options okGasEstimateOp okGasPriceOp okBalanceOp okSubmitOp).2 =
      CreateResult.tx
        { hash := "0xtransactionhash", value := 5 - (0 + 20000) * 1,
          gasLimit := 0 + 20000, gasPrice := 1 } ∧
    (({ hash := "0xtransactionhash", value := -19995,
        gasLimit := 20000, gasPrice := 1 } : Tx).value = 5 - (0 + 20000) * 1) :=
  ⟨(create_value_and_skip c5Options okGasEstimateOp okGasPriceOp okBalanceOp
      okSubmitOp 0 1 5 rfl rfl rfl).1 ⟨by norm_num, by decide, rfl, by decide⟩,
   ((create_value_and_skip c4Options okGasEstimateOp okGasPriceOp okBalanceOp
      okSubmitOp 0 1 5 rfl rfl rfl).2.1 (fun h => h.2.1 rfl)).2
      "0xtransactionhash" rfl,
   (create_value_and_skip c4Options okGasEstimateOp okGasPriceOp okBalanceOp
      okSubmitOp 0 1 5 rfl rfl rfl).2.2
      { hash := "0xtransactionhash", value := -19995, gasLimit := 20000, gasPrice := 1 }
      rfl⟩

/-- Witness for C5: at scenario S6 (balance 5 wei, cost 20000 wei, same xpub,
differing admin/authorizers) `create` returns the empty record with exactly
three WARN logs. -/
theorem create_warns_on_insufficient_update_funds_witness :
    (create c5Options okGasEstimateOp okGasPriceOp okBalanceOp okSubmitOp).2 =
      CreateResult.empty ∧
    ((create c5Options okGasEstimateOp okGasPriceOp okBalanceOp okSubmitOp).1.filter
        (fun l => l.level == LogLevel.WARN)).length = 3 :=
  have h := create_warns_on_insufficient_update_funds c5Options okGasEstimateOp
    okGasPriceOp okBalanceOp okSubmitOp 0 1 5 rfl rfl rfl (by norm_num)
    (by decide) rfl (by decide)
  ⟨h.1, by rw [h.2.1]; rfl⟩

end Airnode

namespace Airnode

/-- Topic of the `ClientShortRequestCreated` event. -/
def clientShortRequestCreatedTopic : String :=
  "0xfcbcd5adb2d26ecd4ad50e6267e977fd479fcd0a6c82bde8eea85290ab3b46e6"

/-- Topic of the `ClientRequestCreated` (regular) event. -/
def clientRequestCreatedTopic : String :=
  "0xaff6f5e5548953a11cbb1cfdd76562512f969b0eba0a2163f2420630d4dda97b"

/-- Topic of the `ClientFullRequestCreated` event. -/
def clientFullRequestCreatedTopic : String :=
  "0x775e78a8e7375d14ad03d31edd0a27b29a055f732bca987abfe8082c16ed7e44"

/-- The typed arguments of a parsed request-creation event. Fields that a
`short` event does not carry are `Option`s. -/
structure ParsedLogArgs where
  providerId : String
  requestId : String
  noRequests : String
  client : String
  templateId : Option String
  endpointId : Option String
  requesterIndex : Option String
  designatedWallet : Option String
  fulfillAddress : Option String
  fulfillFunctionId : Option String
  parameters : String
deriving DecidableEq, Repr

/-- A parsed event log: its topic and typed arguments. -/
structure ParsedLog where
  topic : String
  args : ParsedLogArgs
deriving DecidableEq, Repr

/-- A parsed log together with the run metadata attached by the event fetcher
(`EVMEventLogWithMetadata` in `src/types`). -/
structure EVMEventLogWithMetadata where
  parsedLog : ParsedLog
  blockNumber : Nat
  currentBlock : Nat
  ignoreBlockedRequestsAfterBlocks : Nat
  transactionHash : String
deriving DecidableEq, Repr

/-- Modelled from the spec: the request builder's topic dispatch (in
`evm/requests/api-calls.ts`, not under `src/`; only its tests are). The
request `type` is determined by the event topic; a topic that is not one of
the three creation topics builds no request. -/
def getApiCallType (topic : String) : Option ApiCallType :=
  if topic = clientShortRequestCreatedTopic then some ApiCallType.short
  else if topic = clientRequestCreatedTopic then some ApiCallType.regular
  else if topic = clientFullRequestCreatedTopic then some ApiCallType.full
  else none

/-- Modelled from the spec: `apiCalls.initialize` (in
`evm/requests/api-calls.ts`, not under `src/`): materialize one request record
per creation event, copying the event arguments and metadata, with
`parameters` empty until decoding and status starting as `Pending`. -/
def initializeApiCall (logWithMetadata : EVMEventLogWithMetadata) : Option ApiCall :=
  (getApiCallType logWithMetadata.parsedLog.topic).map (fun t =>
    { id := logWithMetadata.parsedLog.args.requestId
      clientAddress := logWithMetadata.parsedLog.args.client
      designatedWallet := logWithMetadata.parsedLog.args.designatedWallet
      endpointId := logWithMetadata.parsedLog.args.endpointId
      fulfillAddress := logWithMetadata.parsedLog.args.fulfillAddress
      fulfillFunctionId := logWithMetadata.parsedLog.args.fulfillFunctionId
      encodedParameters := logWithMetadata.parsedLog.args.parameters
      metadata :=
        { blockNumber := logWithMetadata.blockNumber
          currentBlock := logWithMetadata.currentBlock
          ignoreBlockedRequestsAfterBlocks :=
            logWithMetadata.ignoreBlockedRequestsAfterBlocks
          transactionHash := logWithMetadata.transactionHash }
      parameters := []
      providerId := logWithMetadata.parsedLog.args.providerId
      requestCount := logWithMetadata.parsedLog.args.noRequests
      requesterIndex := logWithMetadata.parsedLog.args.requesterIndex
      status := RequestStatus.Pending
      errorCode := none
      responseValue := none
      templateId := logWithMetadata.parsedLog.args.templateId
      type := t })

/-- Modelled from the spec: `apiCalls.applyParameters` (in
`evm/requests/api-calls.ts`, not under `src/`), parametrized by the
`airnode-abi` decoder for tagged-parameter blobs (an external package). An
empty (falsey) `encodedParameters` is returned unchanged; a successful decode
replaces `parameters`; a failed decode marks the request `Errored` with
`RequestParameterDecodingFailed` and emits one ERROR log naming the request id
and the offending bytes, leaving every other field intact. -/
def applyParameters (decode : String → Option (List (String × String)))
    (request : ApiCall) : List Log × ApiCall :=
  if request.encodedParameters = "" then ([], request)
  else
    match decode request.encodedParameters with
    | some parameters => ([], { request with parameters := parameters })
    | none =>
      ([pend LogLevel.ERROR
          ("Request ID:" ++ request.id ++ " submitted with invalid parameters: " ++
            request.encodedParameters)],
       { request with
           status := RequestStatus.Errored
           errorCode := some RequestErrorCode.RequestParameterDecodingFailed })

/-- Modelled from the spec: `apiCalls.updateFulfilledRequests` (in
`evm/requests/api-calls.ts`, not under `src/`): every request whose id appears
in `fulfilledRequestIds` is marked `Fulfilled` with one DEBUG log; every other
request is returned unchanged. -/
def updateFulfilledRequests (apiCalls : List ApiCall)
    (fulfilledRequestIds : List String) : List Log × List ApiCall :=
  match apiCalls with
  | [] => ([], [])
  | request :: rest =>
    let restResult := updateFulfilledRequests rest fulfilledRequestIds
    if request.id ∈ fulfilledRequestIds then
      (pend LogLevel.DEBUG
          ("Request ID:" ++ request.id ++ " (API call) has already been fulfilled")
        :: restResult.1,
       { request with status := RequestStatus.Fulfilled } :: restResult.2)
    else
      (restResult.1, request :: restResult.2)

/-- The per-request effect of the fulfilled overlay: requests whose id is
among the fulfilled ids are marked `Fulfilled`, the rest are untouched. -/
def markFulfilled (fulfilledRequestIds : List String) (c : ApiCall) : ApiCall :=
  if c.id ∈ fulfilledRequestIds then { c with status := RequestStatus.Fulfilled }
  else c

end Airnode

namespace Airnode

/-- C6. For every API-call request whose encodedParameters cannot be decoded,
`applyParameters` returns the request with status Errored and errorCode
RequestParameterDecodingFailed, leaves every other field unchanged, and emits
exactly one ERROR log containing the request id and the offending bytes. -/
theorem applyParameters_decode_failure
    (decode : String → Option (List (String × String))) (request : ApiCall)
    (hne : request.encodedParameters ≠ "")
    (hdec : decode request.encodedParameters = none) :
    applyParameters decode request =
      ([pend LogLevel.ERROR
          ("Request ID:" ++ request.id ++ " submitted with invalid parameters: " ++
            request.encodedParameters)],
       { request with
           status := RequestStatus.Errored
           errorCode := some RequestErrorCode.RequestParameterDecodingFailed }) := by
  unfold applyParameters
  rw [if_neg hne, hdec]

/-- A decoder rejecting every blob. -/
def failingDecode : String → Option (List (String × String)) := fun _ => none

/-- The fixture request carrying undecodable encoded parameters (scenario S4). -/
def c6Request : ApiCall :=
  { fixtureApiCall with encodedParameters := "0xincorrectparameters" }

/-- Witness for C6: the fixture request with `0xincorrectparameters` is marked
Errored/RequestParameterDecodingFailed with the single ERROR log. -/
theorem applyParameters_decode_failure_witness :
    applyParameters failingDecode c6Request =
      ([pend LogLevel.ERROR
          ("Request ID:" ++ c6Request.id ++ " submitted with invalid parameters: " ++
            c6Request.encodedParameters)],
       { c6Request with
           status := RequestStatus.Errored
           errorCode := some RequestErrorCode.RequestParameterDecodingFailed }) :=
  applyParameters_decode_failure failingDecode c6Request (by decide) rfl

/-- C7. `updateFulfilledRequests` sets status Fulfilled for exactly the
requests whose id appears in `fulfilledRequestIds`, emits one DEBUG log per
marked request, returns every other request unchanged, and is idempotent on
the returned requests. -/
theorem updateFulfilledRequests_spec (apiCalls : List ApiCall)
    (fulfilledRequestIds : List String) :
    (updateFulfilledRequests apiCalls fulfilledRequestIds).2 =
      apiCalls.map (markFulfilled fulfilledRequestIds) ∧
    (updateFulfilledRequests apiCalls fulfilledRequestIds).1 =
      (apiCalls.filter (fun c => c.id ∈ fulfilledRequestIds)).map (fun c =>
        pend LogLevel.DEBUG
          ("Request ID:" ++ c.id ++ " (API call) has already been fulfilled")) ∧
    (updateFulfilledRequests (updateFulfilledRequests apiCalls fulfilledRequestIds).2
        fulfilledRequestIds).2 =
      (updateFulfilledRequests apiCalls fulfilledRequestIds).2 := by
  have hmark : ∀ c : ApiCall,
      markFulfilled fulfilledRequestIds (markFulfilled fulfilledRequestIds c) =
        markFulfilled fulfilledRequestIds c := by
    intro c
    unfold markFulfilled
    by_cases h : c.id ∈ fulfilledRequestIds
    · rw [if_pos h,
        if_pos (show ({ c with status := RequestStatus.Fulfilled } : ApiCall).id ∈
          fulfilledRequestIds from h)]
    · rw [if_neg h, if_neg h]
  have hsnd : ∀ l : List ApiCall, (updateFulfilledRequests l fulfilledRequestIds).2 =
      l.map (markFulfilled fulfilledRequestIds) := by
    intro l
    induction l with
    | nil => rfl
    | cons a t ih =>
      by_cases h : a.id ∈ fulfilledRequestIds <;>
        simp [updateFulfilledRequests, markFulfilled, h, ih]
  have hfst : ∀ l : List ApiCall, (updateFulfilledRequests l fulfilledRequestIds).1 =
      (l.filter (fun c => c.id ∈ fulfilledRequestIds)).map (fun c =>
        pend LogLevel.DEBUG
          ("Request ID:" ++ c.id ++ " (API call) has already been fulfilled")) := by
    intro l
    induction l with
    | nil => rfl
    | cons a t ih =>
      by_cases h : a.id ∈ fulfilledRequestIds <;>
        simp [updateFulfilledRequests, h, ih]
  refine ⟨hsnd apiCalls, hfst apiCalls, ?_⟩
  rw [hsnd, hsnd, List.map_map]
  exact List.map_congr_left (fun c _ => hmark c)

/-- C8. For every parsed request-creation event, the built request's type is
determined solely by the event topic: the short-request topic yields "short",
the regular topic "regular", and the full topic "full". -/
theorem initializeApiCall_type_from_topic (ev : EVMEventLogWithMetadata) :
    (ev.parsedLog.topic = clientShortRequestCreatedTopic →
      (initializeApiCall ev).map ApiCall.type = some ApiCallType.short) ∧
    (ev.parsedLog.topic = clientRequestCreatedTopic →
      (initializeApiCall ev).map ApiCall.type = some ApiCallType.regular) ∧
    (ev.parsedLog.topic = clientFullRequestCreatedTopic →
      (initializeApiCall ev).map ApiCall.type = some ApiCallType.full) := by
  refine ⟨?_, ?_, ?_⟩ <;> intro h <;>
    simp [initializeApiCall, getApiCallType, h, clientShortRequestCreatedTopic,
      clientRequestCreatedTopic, clientFullRequestCreatedTopic]

/-- Arguments of the fixture creation event. -/
def c8Args : ParsedLogArgs :=
  { providerId := "0x9e5a89de5a7e780b9eb5a61425a3a656f0c891ac4c56c07037d257724af490c9"
    requestId := "0xca83cf24dc881ae41b79ee66ed11f7f09d235bd801891b1223a3cceb753ec3d5"
    noRequests := "1"
    client := "0x9fE46736679d2D9a65F0992F2272dE9f3c7fa6e0"
    templateId := some "0x3576f03d33eb6dd0c6305509117a9501a938aab52bb466a21fe536c1e37511b4"
    endpointId := none
    requesterIndex := some "2"
    designatedWallet := some "0x3580C27eDAafdb494973410B794f3F07fFAEa5E5"
    fulfillAddress := some "0x9fE46736679d2D9a65F0992F2272dE9f3c7fa6e0"
    fulfillFunctionId := some "0xd3bd1464"
    parameters := "0x316200000000000000000000000000000000000000000000000000000000000066726f6d000000000000000000000000000000000000000000000000000000004554480000000000000000000000000000000000000000000000000000000000" }

/-- The fixture creation event under a given topic. -/
def c8Event (topic : String) : EVMEventLogWithMetadata :=
  { parsedLog := { topic := topic, args := c8Args }
    blockNumber := 10716082
    currentBlock := 10716085
    ignoreBlockedRequestsAfterBlocks := 20
    transactionHash := "0x61c972d98485da38115a5730b6741ffc4f3e09ae5e1df39a7ff18a68777ab318" }

/-- Witness for C8: the fixture event under the three creation topics builds
requests typed short, regular and full respectively. -/
theorem initializeApiCall_type_from_topic_witness :
    (initializeApiCall (c8Event clientShortRequestCreatedTopic)).map ApiCall.type =
      some ApiCallType.short ∧
    (initializeApiCall (c8Event clientRequestCreatedTopic)).map ApiCall.type =
      some ApiCallType.regular ∧
    (initializeApiCall (c8Event clientFullRequestCreatedTopic)).map ApiCall.type =
      some ApiCallType.full :=
  ⟨(initializeApiCall_type_from_topic (c8Event clientShortRequestCreatedTopic)).1 rfl,
   (initializeApiCall_type_from_topic (c8Event clientRequestCreatedTopic)).2.1 rfl,
   (initializeApiCall_type_from_topic (c8Event clientFullRequestCreatedTopic)).2.2 rfl⟩

end Airnode

namespace Airnode

/-- Contract-level events emitted by `Airnode.sol` (the fields the properties
inspect). -/
inductive AirnodeEvent
  | clientRequestCreated (providerId requestId : Nat) (noRequests : Nat)
      (client : String) (templateId : Nat) (requesterIndex : Nat)
      (designatedWallet fulfillAddress : String) (fulfillFunctionId : Nat)
      (parameters : String)
  | clientFullRequestCreated (providerId requestId : Nat) (noRequests : Nat)
      (client : String) (endpointId : Nat) (requesterIndex : Nat)
      (designatedWallet fulfillAddress : String) (fulfillFunctionId : Nat)
      (parameters : String)
  | clientRequestFulfilled (providerId requestId : Nat) (statusCode : Nat)
      (data : String)
  | clientRequestFailed (providerId requestId : Nat)
deriving DecidableEq, Repr

/-- Storage of the `Airnode` contract: the fulfillment-parameter hashes keyed
by request id (a `bytes32` defaulting to zero, modelled as `Nat`), the failure
flags, the per-client request counters, the endorsement mapping of
`RequesterStore`, and the `templateId -> providerId` view of `TemplateStore`. -/
structure AirnodeState where
  requestIdToFulfillmentParameters : Nat → Nat
  requestWithIdHasFailed : Nat → Bool
  clientAddressToNoRequests : String → Nat
  requesterIndexToClientAddressToEndorsementStatus : Nat → String → Bool
  templates : Nat → Nat

/-- `keccak256(abi.encodePacked(providerId, wallet, fulfillAddress,
fulfillFunctionId))` — the fulfillment-parameter hash — is kept abstract: the
contract functions take the hash function as a parameter. -/
def FulfillmentHash : Type := Nat → String → String → Nat → Nat

/-- `keccak256(abi.encode(noRequests, client, templateOrEndpointId,
parameters))` — the request-id hash — likewise kept abstract. -/
def RequestIdHash : Type := Nat → String → Nat → String → Nat

/-- `makeRequest` from `Airnode.sol`: reverts (modelled as `Except.error`,
which carries no state and no events, as a revert rolls both back) unless the
calling client is endorsed by the requester; otherwise derives the request id
from the client's request count, stores the fulfillment-parameter hash, emits
`ClientRequestCreated` and increments the client's request count. -/
def makeRequest (hashRequestId : RequestIdHash) (hashFulfillment : FulfillmentHash)
    (sender : String) (s : AirnodeState) (templateId : Nat) (requesterIndex : Nat)
    (designatedWallet fulfillAddress : String) (fulfillFunctionId : Nat)
    (parameters : String) :
    Except String (Nat × AirnodeState × List AirnodeEvent) :=
  if s.requesterIndexToClientAddressToEndorsementStatus requesterIndex sender then
    let clientNoRequests := s.clientAddressToNoRequests sender
    let requestId := hashRequestId clientNoRequests sender templateId parameters
    let providerId := s.templates templateId
    let s1 := { s with
      requestIdToFulfillmentParameters :=
        Function.update s.requestIdToFulfillmentParameters requestId
          (hashFulfillment providerId designatedWallet fulfillAddress fulfillFunctionId)
      clientAddressToNoRequests :=
        Function.update s.clientAddressToNoRequests sender (clientNoRequests + 1) }
    Except.ok (requestId, s1,
      [AirnodeEvent.clientRequestCreated providerId requestId clientNoRequests
        sender templateId requesterIndex designatedWallet fulfillAddress
        fulfillFunctionId parameters])
  else Except.error "Client not endorsed by requester"

/-- `makeFullRequest` from `Airnode.sol`: as `makeRequest` but with the
provider and endpoint given inline and the endpoint id entering the request-id
hash in place of the template id. -/
def makeFullRequest (hashRequestId : RequestIdHash) (hashFulfillment : FulfillmentHash)
    (sender : String) (s : AirnodeState) (providerId endpointId : Nat)
    (requesterIndex : Nat) (designatedWallet fulfillAddress : String)
    (fulfillFunctionId : Nat) (parameters : String) :
    Except String (Nat × AirnodeState × List AirnodeEvent) :=
  if s.requesterIndexToClientAddressToEndorsementStatus requesterIndex sender then
    let clientNoRequests := s.clientAddressToNoRequests sender
    let requestId := hashRequestId clientNoRequests sender endpointId parameters
    let s1 := { s with
      requestIdToFulfillmentParameters :=
        Function.update s.requestIdToFulfillmentParameters requestId
          (hashFulfillment providerId designatedWallet fulfillAddress fulfillFunctionId)
      clientAddressToNoRequests :=
        Function.update s.clientAddressToNoRequests sender (clientNoRequests + 1) }
    Except.ok (requestId, s1,
      [AirnodeEvent.clientFullRequestCreated providerId requestId clientNoRequests
        sender endpointId requesterIndex designatedWallet fulfillAddress
        fulfillFunctionId parameters])
  else Except.error "Client not endorsed by requester"

/-- `fulfill` from `Airnode.sol`: the `onlyCorrectFulfillmentParameters`
modifier reverts unless the hash of the incoming parameters (with the caller
as the wallet) equals the stored hash; on success the stored hash is deleted
(reset to zero) and `ClientRequestFulfilled` is emitted. The low-level call to
`fulfillAddress` is outside the contract's own state and not modelled. -/
def fulfill (hashFulfillment : FulfillmentHash) (sender : String)
    (s : AirnodeState) (requestId providerId : Nat) (statusCode : Nat)
    (data : String) (fulfillAddress : String) (fulfillFunctionId : Nat) :
    Except String (AirnodeState × List AirnodeEvent) :=
  let incomingFulfillmentParameters :=
    hashFulfillment providerId sender fulfillAddress fulfillFunctionId
  if incomingFulfillmentParameters = s.requestIdToFulfillmentParameters requestId then
    Except.ok
      ({ s with requestIdToFulfillmentParameters :=
          Function.update s.requestIdToFulfillmentParameters requestId 0 },
       [AirnodeEvent.clientRequestFulfilled providerId requestId statusCode data])
  else Except.error "Incorrect fulfillment parameters"

/-- `fail` from `Airnode.sol`: same modifier as `fulfill`; on success the
stored hash is deleted, the failure is recorded in `requestWithIdHasFailed`
and `ClientRequestFailed` is emitted. -/
def fail (hashFulfillment : FulfillmentHash) (sender : String)
    (s : AirnodeState) (requestId providerId : Nat)
    (fulfillAddress : String) (fulfillFunctionId : Nat) :
    Except String (AirnodeState × List AirnodeEvent) :=
  let incomingFulfillmentParameters :=
    hashFulfillment providerId sender fulfillAddress fulfillFunctionId
  if incomingFulfillmentParameters = s.requestIdToFulfillmentParameters requestId then
    Except.ok
      ({ s with
          requestIdToFulfillmentParameters :=
            Function.update s.requestIdToFulfillmentParameters requestId 0
          requestWithIdHasFailed :=
            Function.update s.requestWithIdHasFailed requestId true },
       [AirnodeEvent.clientRequestFailed providerId requestId])
  else Except.error "Incorrect fulfillment parameters"

end Airnode

namespace Airnode

/-- C9. Once a `fulfill` or `fail` call for a request id succeeds, the stored
fulfillment-parameter hash for that id is reset to zero, and on a state whose
stored hash for the id is zero, any `fulfill` or `fail` call whose computed
fulfillment-parameter hash is nonzero reverts with "Incorrect fulfillment
parameters" — a request is fulfilled or failed at most once on-chain. -/
theorem fulfillment_once (hashFulfillment : FulfillmentHash)
    (sender sender2 : String) (s : AirnodeState)
    (requestId providerId providerId2 statusCode statusCode2 : Nat)
    (data data2 fulfillAddress fulfillAddress2 : String)
    (fulfillFunctionId fulfillFunctionId2 : Nat) :
    (∀ s1 evs, fulfill hashFulfillment sender s requestId providerId statusCode
        data fulfillAddress fulfillFunctionId = Except.ok (s1, evs) →
      s1.requestIdToFulfillmentParameters requestId = 0) ∧
    (∀ s1 evs, fail hashFulfillment sender s requestId providerId
        fulfillAddress fulfillFunctionId = Except.ok (s1, evs) →
      s1.requestIdToFulfillmentParameters requestId = 0) ∧
    (s.requestIdToFulfillmentParameters requestId = 0 →
      hashFulfillment providerId2 sender2 fulfillAddress2 fulfillFunctionId2 ≠ 0 →
      fulfill hashFulfillment sender2 s requestId providerId2 statusCode2 data2
          fulfillAddress2 fulfillFunctionId2 =
        Except.error "Incorrect fulfillment parameters" ∧
      fail hashFulfillment sender2 s requestId providerId2
          fulfillAddress2 fulfillFunctionId2 =
        Except.error "Incorrect fulfillment parameters") := by
  refine ⟨?_, ?_, ?_⟩
  · intro s1 evs h
    simp only [fulfill] at h
    by_cases hc : hashFulfillment providerId sender fulfillAddress fulfillFunctionId =
        s.requestIdToFulfillmentParameters requestId
    · rw [if_pos hc] at h
      simp only [Except.ok.injEq, Prod.mk.injEq] at h
      rw [← h.1]
      exact Function.update_same requestId 0 s.requestIdToFulfillmentParameters
    · rw [if_neg hc] at h
      simp at h
  · intro s1 evs h
    simp only [fail] at h
    by_cases hc : hashFulfillment providerId sender fulfillAddress fulfillFunctionId =
        s.requestIdToFulfillmentParameters requestId
    · rw [if_pos hc] at h
      simp only [Except.ok.injEq, Prod.mk.injEq] at h
      rw [← h.1]
      exact Function.update_same requestId 0 s.requestIdToFulfillmentParameters
    · rw [if_neg hc] at h
      simp at h
  · intro h0 hne
    constructor
    · simp only [fulfill]
      rw [h0, if_neg hne]
    · simp only [fail]
      rw [h0, if_neg hne]

/-- A fulfillment-parameter hash that is the constant 5: nonzero everywhere. -/
def w9HashFulfillment : FulfillmentHash := fun _ _ _ _ => 5

/-- A contract state holding one request (id 7) whose stored
fulfillment-parameter hash is 5. -/
def w9State : AirnodeState :=
  { requestIdToFulfillmentParameters := fun rid => if rid = 7 then 5 else 0
    requestWithIdHasFailed := fun _ => false
    clientAddressToNoRequests := fun _ => 0
    requesterIndexToClientAddressToEndorsementStatus := fun _ _ => true
    templates := fun _ => 0 }

/-- The state after request 7 has been fulfilled: its stored hash deleted. -/
def w9FulfilledState : AirnodeState :=
  { w9State with
      requestIdToFulfillmentParameters :=
        Function.update w9State.requestIdToFulfillmentParameters 7 0 }

/-- Witness for C9: fulfilling request 7 zeroes its stored hash, after which
both `fulfill` and `fail` for request 7 revert. -/
theorem fulfillment_once_witness :
    w9FulfilledState.requestIdToFulfillmentParameters 7 = 0 ∧
    fulfill w9HashFulfillment "airnode" w9FulfilledState 7 1 0 "0xdata" "0xfulfill" 2 =
      Except.error "Incorrect fulfillment parameters" ∧
    fail w9HashFulfillment "airnode" w9FulfilledState 7 1 "0xfulfill" 2 =
      Except.error "Incorrect fulfillment parameters" :=
  have hafter := (fulfillment_once w9HashFulfillment "airnode" "airnode"
    w9FulfilledState 7 1 1 0 0 "0xdata" "0xdata" "0xfulfill" "0xfulfill" 2 2).2.2
    rfl (by decide)
  ⟨(fulfillment_once w9HashFulfillment "airnode" "airnode" w9State 7 1 1 0 0
      "0xdata" "0xdata" "0xfulfill" "0xfulfill" 2 2).1 w9FulfilledState
      [AirnodeEvent.clientRequestFulfilled 1 7 0 "0xdata"] rfl,
   hafter.1, hafter.2⟩

/-- C10. `makeRequest` and `makeFullRequest` revert with "Client not endorsed
by requester" when the endorsement mapping for the requester index and calling
client is false (a revert carries no state change and no event in this model);
on success the caller's request count increments by exactly one; and since the
count enters the request-id hash, two successive requests by the same client
with identical template and parameters receive distinct ids whenever the hash
distinguishes consecutive counts. -/
theorem request_endorsement_and_uniqueness (hashRequestId : RequestIdHash)
    (hashFulfillment : FulfillmentHash) (sender : String) (s : AirnodeState)
    (templateId providerId endpointId requesterIndex : Nat)
    (designatedWallet fulfillAddress : String) (fulfillFunctionId : Nat)
    (parameters : String) :
    (s.requesterIndexToClientAddressToEndorsementStatus requesterIndex sender = false →
      makeRequest hashRequestId hashFulfillment sender s templateId requesterIndex
          designatedWallet fulfillAddress fulfillFunctionId parameters =
        Except.error "Client not endorsed by requester" ∧
      makeFullRequest hashRequestId hashFulfillment sender s providerId endpointId
          requesterIndex designatedWallet fulfillAddress fulfillFunctionId parameters =
        Except.error "Client not endorsed by requester") ∧
    (∀ rid s1 evs, makeRequest hashRequestId hashFulfillment sender s templateId
        requesterIndex designatedWallet fulfillAddress fulfillFunctionId parameters =
          Except.ok (rid, s1, evs) →
      s1.clientAddressToNoRequests sender = s.clientAddressToNoRequests sender + 1) ∧
    ((∀ n tid p, hashRequestId n sender tid p ≠ hashRequestId (n + 1) sender tid p) →
      ∀ rid1 s1 evs1 rid2 s2 evs2,
        makeRequest hashRequestId hashFulfillment sender s templateId requesterIndex
            designatedWallet fulfillAddress fulfillFunctionId parameters =
          Except.ok (rid1, s1, evs1) →
        makeRequest hashRequestId hashFulfillment sender s1 templateId requesterIndex
            designatedWallet fulfillAddress fulfillFunctionId parameters =
          Except.ok (rid2, s2, evs2) →
        rid1 ≠ rid2) := by
  have hmk_inv : ∀ (st : AirnodeState) (rid : Nat) (s1 : AirnodeState)
      (evs : List AirnodeEvent),
      makeRequest hashRequestId hashFulfillment sender st templateId requesterIndex
          designatedWallet fulfillAddress fulfillFunctionId parameters =
        Except.ok (rid, s1, evs) →
      rid = hashRequestId (st.clientAddressToNoRequests sender) sender templateId
          parameters ∧
      s1.clientAddressToNoRequests =
        Function.update st.clientAddressToNoRequests sender
          (st.clientAddressToNoRequests sender + 1) := by
    intro st rid s1 evs h
    simp only [makeRequest] at h
    by_cases hend : st.requesterIndexToClientAddressToEndorsementStatus
        requesterIndex sender = true
    · rw [if_pos hend] at h
      simp only [Except.ok.injEq, Prod.mk.injEq] at h
      obtain ⟨h1, h2, h3⟩ := h
      refine ⟨h1.symm, ?_⟩
      rw [← h2]
    · rw [if_neg hend] at h
      simp at h
  refine ⟨?_, ?_, ?_⟩
  · intro h
    constructor
    · simp only [makeRequest]
      rw [if_neg (by rw [h]; exact Bool.false_ne_true)]
    · simp only [makeFullRequest]
      rw [if_neg (by rw [h]; exact Bool.false_ne_true)]
  · intro rid s1 evs h
    obtain ⟨_, h2⟩ := hmk_inv s rid s1 evs h
    rw [h2]
    exact Function.update_same sender _ s.clientAddressToNoRequests
  · intro hinj rid1 s1 evs1 rid2 s2 evs2 h1 h2
    obtain ⟨e1, u1⟩ := hmk_inv s rid1 s1 evs1 h1
    obtain ⟨e2, _⟩ := hmk_inv s1 rid2 s2 evs2 h2
    have hcount : s1.clientAddressToNoRequests sender =
        s.clientAddressToNoRequests sender + 1 := by
      rw [u1]
      exact Function.update_same sender _ s.clientAddressToNoRequests
    rw [e1, e2, hcount]
    exact hinj (s.clientAddressToNoRequests sender) templateId parameters

/-- A request-id hash revealing the request count: trivially distinguishes
consecutive counts. -/
def w10HashRequestId : RequestIdHash := fun n _ _ _ => n

/-- A contract state where requester 1 endorses the client "client" and no
endorsement else exists. -/
def w10State : AirnodeState :=
  { requestIdToFulfillmentParameters := fun _ => 0
    requestWithIdHasFailed := fun _ => false
    clientAddressToNoRequests := fun _ => 0
    requesterIndexToClientAddressToEndorsementStatus :=
      fun i a => i == 1 && a == "client"
    templates := fun _ => 9 }

/-- The state after the first successful `makeRequest` by "client". -/
def w10SuccessState : AirnodeState :=
  { w10State with
      requestIdToFulfillmentParameters :=
        Function.update w10State.requestIdToFulfillmentParameters 0 5
      clientAddressToNoRequests :=
        Function.update w10State.clientAddressToNoRequests "client" 1 }

/-- The state after the second successful `makeRequest` by "client". -/
def w10SecondState : AirnodeState :=
  { w10SuccessState with
      requestIdToFulfillmentParameters :=
        Function.update w10SuccessState.requestIdToFulfillmentParameters 1 5
      clientAddressToNoRequests :=
        Function.update w10SuccessState.clientAddressToNoRequests "client" 2 }

/-- Witness for C10: requester 2 has not endorsed "client", so both request
entry points revert; the first successful request by "client" bumps its count
from 0 to 1; and the two successive identical requests receive the distinct
ids 0 and 1. -/
theorem request_endorsement_and_uniqueness_witness :
    makeRequest w10HashRequestId w9HashFulfillment "client" w10State 3 2 "0xdw"
        "0xfa" 4 "0xparams" = Except.error "Client not endorsed by requester" ∧
    makeFullRequest w10HashRequestId w9HashFulfillment "client" w10State 9 6 2
        "0xdw" "0xfa" 4 "0xparams" =
      Except.error "Client not endorsed by requester" ∧
    w10SuccessState.clientAddressToNoRequests "client" =
      w10State.clientAddressToNoRequests "client" + 1 ∧
    (0 : Nat) ≠ 1 :=
  have hblocked := (request_endorsement_and_uniqueness w10HashRequestId
    w9HashFulfillment "client" w10State 3 9 6 2 "0xdw" "0xfa" 4 "0xparams").1
    (by decide)
  have hok := (request_endorsement_and_uniqueness w10HashRequestId
    w9HashFulfillment "client" w10State 3 9 6 1 "0xdw" "0xfa" 4 "0xparams")
  ⟨hblocked.1, hblocked.2,
   hok.2.1 0 w10SuccessState
     [AirnodeEvent.clientRequestCreated 9 0 0 "client" 3 1 "0xdw" "0xfa" 4 "0xparams"]
     rfl,
   hok.2.2 (fun n _ _ => Nat.ne_of_lt (Nat.lt_succ_self n)) 0 w10SuccessState
     [AirnodeEvent.clientRequestCreated 9 0 0 "client" 3 1 "0xdw" "0xfa" 4 "0xparams"]
     1 w10SecondState
     [AirnodeEvent.clientRequestCreated 9 1 1 "client" 3 1 "0xdw" "0xfa" 4 "0xparams"]
     rfl rfl⟩

end Airnode
